import Mathlib

/-!
Verification development for a bug-fix-and-verify automation tool consisting
of two Python programs: an orchestrator (run_claude.py) that runs a failing
test, asks a language-model service for a patch, applies it and reruns the
test, and a metrics aggregator (extract_metrices.py) that reads the produced
log artifacts and computes a resolved/unresolved verdict.

The development shallowly embeds the relevant functions:

* `parse_pytest_output` — the test-output parser, including a hand-compiled,
  faithful backtracking matcher for its fixed regular expression;
* `computeMetrics` — the aggregator's `main` as a function of the artifact
  files present in the working directory;
* `run_command`, `call_anthropic`, `extract_patch`, `orchestrate` — the
  orchestrator's components as functions of an explicit environment that
  supplies the outcomes of external commands and model requests.
-/

/-! ## Basic character-list utilities (exact substring search) -/

/-- Does `s` start with `pat` (character-exact)? -/
def startsWithPat : List Char → List Char → Bool
  | [], _ => true
  | _ :: _, [] => false
  | p :: ps, c :: cs => p == c && startsWithPat ps cs

/-- Does `pat` occur (contiguously) anywhere in `s`?  This is Python's
`pat in s` on strings. -/
def containsSub (pat : List Char) : List Char → Bool
  | [] => startsWithPat pat []
  | c :: rest => startsWithPat pat (c :: rest) || containsSub pat rest

/-! ## The test-output parser's regular expression

`parse_pytest_output` in extract_metrices.py first checks for the literal
substring `"no tests ran"`, then runs

  `re.search(r"=+\s+(?:(\d+)\s+failed,?)?\s*(?:(\d+)\s+passed,?)?.*=+", content)`

The matcher below hand-compiles exactly this pattern with Python `re`
semantics: leftmost match position wins; greedy quantifiers try the longest
alternative first and backtrack; `.` does not match a newline (no DOTALL);
a group that did not participate yields `None`, which the caller turns into
the count 0.  `\s` and `\d` are modelled by their ASCII classes (every text
these programs parse is ASCII; moreover a match can only start at a `'='`
character, so characters outside a match are never classified). -/

/-- ASCII class of Python's `\s`. -/
def isWs (c : Char) : Bool :=
  c == ' ' || c == '\t' || c == '\n' || c == '\r' || c == '\x0b' || c == '\x0c'

/-- ASCII class of Python's `\d`. -/
def isDigitCh (c : Char) : Bool :=
  '0' ≤ c && c ≤ '9'

/-- Maximal run of digits at the front of the list, and the remainder. -/
def takeDigits : List Char → List Char × List Char
  | [] => ([], [])
  | c :: rest =>
    if isDigitCh c then
      let (ds, r) := takeDigits rest
      (c :: ds, r)
    else ([], c :: rest)

/-- Decimal value of a digit list (what Python's `int` does on the capture). -/
def digitVal (ds : List Char) : Nat :=
  ds.foldl (fun n c => 10 * n + (c.toNat - 48)) 0

/-- The piece `(\d+)` followed by something non-digit: the only viable backtracking
choice is the maximal digit run, because a shorter run leaves a digit in
front, and in this pattern `(\d+)` is always followed by `\s+`. -/
def digitsRun (s : List Char) : Option (Nat × List Char) :=
  match takeDigits s with
  | ([], _) => none
  | (ds, r) => some (digitVal ds, r)

/-- Drop a (possibly empty) run of whitespace. -/
def dropWs : List Char → List Char
  | [] => []
  | c :: rest => if isWs c then dropWs rest else c :: rest

/-- The piece `\s+` immediately followed by a literal letter (`failed`/`passed`): the
only viable choice is the maximal whitespace run, because a shorter run
leaves a whitespace character where the letter is required. -/
def wsRun1 (s : List Char) : Option (List Char) :=
  match s with
  | c :: rest => if isWs c then some (dropWs rest) else none
  | [] => none

/-- Strip a literal, or fail. -/
def stripLit (lit : List Char) (s : List Char) : Option (List Char) :=
  if startsWithPat lit s then some (s.drop lit.length) else none

/-- Tail of the pattern, `.*=+`: with nothing after it, it succeeds exactly
when some `'='` occurs at or after the current position but before the next
newline (`.` cannot cross `'\n'`). -/
def lineHasEq : List Char → Bool
  | [] => false
  | c :: rest => if c == '\n' then false else if c == '=' then true else lineHasEq rest

/-- The piece `,?` after `passed`, then `.*=+`.  Greedy: the comma is consumed first;
on failure of the continuation the comma is left to `.*`. -/
def afterPassed : List Char → Bool
  | ',' :: rest => lineHasEq rest || lineHasEq (',' :: rest)
  | s => lineHasEq s

/-- The group `(\d+)\s+passed,?` followed by `.*=+`; returns the captured
count when the whole continuation succeeds. -/
def cdGroup (s : List Char) : Option Nat :=
  match digitsRun s with
  | some (n, s1) =>
    match wsRun1 s1 with
    | some s2 =>
      match stripLit ("passed").data s2 with
      | some s3 => if afterPassed s3 then some n else none
      | none => none
    | none => none
  | none => none

/-- The piece `(?:(\d+)\s+passed,?)?.*=+`: the optional group is tried first (greedy),
the empty alternative second.  Result: `some g2` when the rest of the
pattern matches, `g2` being the `passed` capture. -/
def cd (s : List Char) : Option (Option Nat) :=
  match cdGroup s with
  | some n => some (some n)
  | none => if lineHasEq s then some none else none

/-- The piece `\s*` before the `passed` group: greedy with backtracking — the longest
whitespace run is preferred, then ever shorter runs, finally none. -/
def bcd : List Char → Option (Option Nat)
  | [] => cd []
  | c :: rest =>
    if isWs c then
      match bcd rest with
      | some r => some r
      | none => cd (c :: rest)
    else cd (c :: rest)

/-- The piece `,?` after `failed`, then `\s*(?:(\d+)\s+passed,?)?.*=+`. -/
def afterFailed (n : Nat) (s : List Char) : Option (Option Nat × Option Nat) :=
  match s with
  | ',' :: rest =>
    (match bcd rest with
     | some g2 => some (some n, g2)
     | none => (bcd (',' :: rest)).map (fun g2 => (some n, g2)))
  | _ => (bcd s).map (fun g2 => (some n, g2))

/-- The group `(\d+)\s+failed,?` followed by the rest of the pattern. -/
def aFailedGroup (s : List Char) : Option (Option Nat × Option Nat) :=
  match digitsRun s with
  | some (n, s1) =>
    match wsRun1 s1 with
    | some s2 =>
      match stripLit ("failed").data s2 with
      | some s3 => afterFailed n s3
      | none => none
    | none => none
  | none => none

/-- The piece `(?:(\d+)\s+failed,?)?\s*(?:(\d+)\s+passed,?)?.*=+`: the `failed` group
is tried first, the empty alternative second. -/
def abcd (s : List Char) : Option (Option Nat × Option Nat) :=
  match aFailedGroup s with
  | some r => some r
  | none => (bcd s).map (fun g2 => ((none : Option Nat), g2))

/-- The `\s*` continuation of the leading `\s+` (greedy, longest first). -/
def wsStarA : List Char → Option (Option Nat × Option Nat)
  | [] => abcd []
  | c :: rest =>
    if isWs c then
      match wsStarA rest with
      | some r => some r
      | none => abcd (c :: rest)
    else abcd (c :: rest)

/-- The piece `\s+` after the leading `=+`. -/
def wsPlusA : List Char → Option (Option Nat × Option Nat)
  | [] => none
  | c :: rest => if isWs c then wsStarA rest else none

/-- Continuation of the leading `=+` (greedy, longest first; shorter runs
are retried on failure, faithful to the engine even though they leave a
non-whitespace `'='` for `\s+`). -/
def eqStarWs : List Char → Option (Option Nat × Option Nat)
  | [] => wsPlusA []
  | c :: rest =>
    if c == '=' then
      match eqStarWs rest with
      | some r => some r
      | none => wsPlusA (c :: rest)
    else wsPlusA (c :: rest)

/-- Match of the full pattern anchored at the current position: at least one
`'='` is required first. -/
def eqPlusWs : List Char → Option (Option Nat × Option Nat)
  | [] => none
  | c :: rest => if c == '=' then eqStarWs rest else none

/-- Python's `re.search`: try every start position left to right, return the captures
`(group 1 — failed, group 2 — passed)` of the leftmost successful match. -/
def reSearch : List Char → Option (Option Nat × Option Nat)
  | [] => none
  | c :: rest =>
    match eqPlusWs (c :: rest) with
    | some r => some r
    | none => reSearch rest

/-! ## parse_pytest_output -/

/-- The parser's result dictionary `{passed, failed, error}`. -/
structure PStats where
  passed : Nat
  failed : Nat
  error : Bool
deriving DecidableEq, Repr

/-- The literal marker checked before the regex. -/
def ntr : List Char := ("no tests ran").data

/-- Function `parse_pytest_output` of extract_metrices.py, on a character list. -/
def parse_pytest_output_chars (content : List Char) : PStats :=
  if containsSub ntr content then ⟨0, 0, true⟩
  else
    match reSearch content with
    | some (g1, g2) => ⟨g2.getD 0, g1.getD 0, false⟩
    | none => ⟨0, 0, false⟩

/-- Function `parse_pytest_output` of extract_metrices.py. -/
def parse_pytest_output (content : String) : PStats :=
  parse_pytest_output_chars content.data

/-! ## The metrics aggregator (`main` of extract_metrices.py)

`main` reads three artifact files if present — agent.log (line count),
pre_verification.log and post_verification.log (parsed pytest output) —
classifies each verification phase, and derives `resolved`.  The filesystem
is modelled by the optional contents of those three files. -/

/-- The artifact files the aggregator reads: `none` means the file does not
exist; agent.log is read as a list of lines. -/
structure MetricsFS where
  agentLines : Option (List String)
  preLog : Option String
  postLog : Option String

/-- The `metrics` dictionary written to result.json. -/
structure RunMetrics where
  agent_actions : Nat
  pre_verification_status : String
  post_verification_status : String
  resolved : Bool
  details_pre : Option PStats
  details_post : Option PStats

/-- Lines 48–59: pre-verification is `success_failure_reproduced` when the
parsed failed count is positive, `unexpected_pass` otherwise, and
`missing_log` when the file is absent. -/
def classifyPre : Option String → String
  | some c =>
    if 0 < (parse_pytest_output c).failed then "success_failure_reproduced"
    else "unexpected_pass"
  | none => "missing_log"

/-- Lines 62–74: post-verification is `success_fixed` when the parsed failed
count is 0 and the passed count is positive, `failed_fix` otherwise, and
`missing_log` when the file is absent. -/
def classifyPost : Option String → String
  | some c =>
    if (parse_pytest_output c).failed == 0 && 0 < (parse_pytest_output c).passed
    then "success_fixed" else "failed_fix"
  | none => "missing_log"

/-- Function `main` of extract_metrices.py as a function of the files present. -/
def computeMetrics (fs : MetricsFS) : RunMetrics :=
  { agent_actions :=
      match fs.agentLines with
      | some ls => ls.length
      | none => 0
    pre_verification_status := classifyPre fs.preLog
    post_verification_status := classifyPost fs.postLog
    resolved :=
      classifyPre fs.preLog == "success_failure_reproduced" &&
      classifyPost fs.postLog == "success_fixed"
    details_pre := fs.preLog.map parse_pytest_output
    details_post := fs.postLog.map parse_pytest_output }

/-! ## Claims about the aggregator and the parser -/

/-- Claim C1: for every run of the metrics aggregator, the resulting metrics
have `resolved = true` exactly when the pre-verification status is
`success_failure_reproduced` and the post-verification status is
`success_fixed`; every other combination of the two statuses (including both
logs missing) yields `resolved = false`. -/
theorem resolved_iff_both_statuses (fs : MetricsFS) :
    (computeMetrics fs).resolved = true ↔
      ((computeMetrics fs).pre_verification_status = "success_failure_reproduced" ∧
       (computeMetrics fs).post_verification_status = "success_fixed") := by
  simp [computeMetrics, Bool.and_eq_true, beq_iff_eq]

/-- Claim C2: when the pre-verification log exists its status is
`success_failure_reproduced` exactly when the parsed failed count is
positive and `unexpected_pass` exactly when it is zero; when the log is
missing the status is `missing_log`. -/
theorem pre_status_classification (fs fsm : MetricsFS) (c : String)
    (h : fs.preLog = some c) (hm : fsm.preLog = none) :
    ((computeMetrics fs).pre_verification_status = "success_failure_reproduced" ↔
       0 < (parse_pytest_output c).failed)
    ∧ ((computeMetrics fs).pre_verification_status = "unexpected_pass" ↔
       (parse_pytest_output c).failed = 0)
    ∧ (computeMetrics fsm).pre_verification_status = "missing_log" := by
  refine ⟨?_, ?_, ?_⟩
  · simp only [computeMetrics, classifyPre, h]
    by_cases h0 : 0 < (parse_pytest_output c).failed <;> simp [h0]
  · simp only [computeMetrics, classifyPre, h]
    by_cases h0 : 0 < (parse_pytest_output c).failed <;> simp [h0] <;> omega
  · simp [computeMetrics, classifyPre, hm]

theorem pre_status_classification_witness :
    ((computeMetrics ⟨none, some "== 1 failed ==", none⟩).pre_verification_status =
        "success_failure_reproduced" ↔ 0 < (parse_pytest_output "== 1 failed ==").failed)
    ∧ ((computeMetrics ⟨none, some "== 1 failed ==", none⟩).pre_verification_status =
        "unexpected_pass" ↔ (parse_pytest_output "== 1 failed ==").failed = 0)
    ∧ (computeMetrics ⟨none, none, none⟩).pre_verification_status = "missing_log" :=
  pre_status_classification ⟨none, some "== 1 failed ==", none⟩ ⟨none, none, none⟩
    "== 1 failed ==" rfl rfl

/-- Claim C3: when the post-verification log exists its status is
`success_fixed` exactly when the parsed failed count is 0 and the passed
count positive, and `failed_fix` otherwise; a parse with both counts 0
(zero tests executed) is never classified as fixed; a missing log yields
`missing_log`. -/
theorem post_status_classification (fs fsm : MetricsFS) (c : String)
    (h : fs.postLog = some c) (hm : fsm.postLog = none) :
    ((computeMetrics fs).post_verification_status = "success_fixed" ↔
       ((parse_pytest_output c).failed = 0 ∧ 0 < (parse_pytest_output c).passed))
    ∧ ((computeMetrics fs).post_verification_status = "failed_fix" ↔
       ¬ ((parse_pytest_output c).failed = 0 ∧ 0 < (parse_pytest_output c).passed))
    ∧ ((parse_pytest_output c).failed = 0 → (parse_pytest_output c).passed = 0 →
       (computeMetrics fs).post_verification_status = "failed_fix")
    ∧ (computeMetrics fsm).post_verification_status = "missing_log" := by
  have hif : ((parse_pytest_output c).failed == 0 &&
      decide (0 < (parse_pytest_output c).passed)) = true ↔
      ((parse_pytest_output c).failed = 0 ∧ 0 < (parse_pytest_output c).passed) := by
    simp
  refine ⟨?_, ?_, ?_, ?_⟩
  · simp only [computeMetrics, classifyPost, h]
    by_cases hP : (parse_pytest_output c).failed = 0 ∧ 0 < (parse_pytest_output c).passed
    · rw [if_pos (hif.mpr hP)]
      simp [hP]
    · rw [if_neg (fun hb => hP (hif.mp hb))]
      simp [hP]
  · simp only [computeMetrics, classifyPost, h]
    by_cases hP : (parse_pytest_output c).failed = 0 ∧ 0 < (parse_pytest_output c).passed
    · rw [if_pos (hif.mpr hP)]
      simp [hP]
    · rw [if_neg (fun hb => hP (hif.mp hb))]
      simp [hP]
  · intro h0 h1
    simp [computeMetrics, classifyPost, h, h0, h1]
  · simp [computeMetrics, classifyPost, hm]

theorem post_status_classification_witness :
    ((computeMetrics ⟨none, none, some "hello"⟩).post_verification_status = "success_fixed" ↔
       ((parse_pytest_output "hello").failed = 0 ∧ 0 < (parse_pytest_output "hello").passed))
    ∧ ((computeMetrics ⟨none, none, some "hello"⟩).post_verification_status = "failed_fix" ↔
       ¬ ((parse_pytest_output "hello").failed = 0 ∧ 0 < (parse_pytest_output "hello").passed))
    ∧ ((parse_pytest_output "hello").failed = 0 → (parse_pytest_output "hello").passed = 0 →
       (computeMetrics ⟨none, none, some "hello"⟩).post_verification_status = "failed_fix")
    ∧ (computeMetrics ⟨none, none, none⟩).post_verification_status = "missing_log" :=
  post_status_classification ⟨none, none, some "hello"⟩ ⟨none, none, none⟩ "hello" rfl rfl

/-- Claim C5: any text containing the substring `"no tests ran"` parses to
`{passed := 0, failed := 0, error := true}` regardless of other content;
conversely `error = true` occurs only for such texts, and then both counts
are 0. -/
theorem parser_no_tests_ran (content : String) :
    (containsSub ntr content.data = true → parse_pytest_output content = ⟨0, 0, true⟩)
    ∧ ((parse_pytest_output content).error = true →
        containsSub ntr content.data = true ∧
        (parse_pytest_output content).passed = 0 ∧
        (parse_pytest_output content).failed = 0) := by
  by_cases h : containsSub ntr content.data
  · constructor
    · intro _
      simp [parse_pytest_output, parse_pytest_output_chars, h]
    · intro _
      refine ⟨h, ?_, ?_⟩ <;> simp [parse_pytest_output, parse_pytest_output_chars, h]
  · constructor
    · intro hc; exact absurd hc h
    · intro he
      exfalso
      unfold parse_pytest_output parse_pytest_output_chars at he
      simp only [h, Bool.false_eq_true, if_false] at he
      rcases hr : reSearch content.data with - | ⟨g1, g2⟩ <;> rw [hr] at he <;> simp at he

theorem parser_no_tests_ran_witness :
    parse_pytest_output "no tests ran" = ⟨0, 0, true⟩ ∧
      containsSub ntr ("no tests ran").data = true :=
  ⟨(parser_no_tests_ran "no tests ran").1 (by decide),
   ((parser_no_tests_ran "no tests ran").2 (by decide)).1⟩

/-! ## Claim C4: summary-line parsing and the effect of preceding text

The original claim quantifies over every text ending in a given summary
line.  That fails: `re.search` reports the *leftmost* match, so an earlier
summary line in the text wins, and the `"no tests ran"` marker takes
precedence over everything.  The lemmas below show the claim holds for any
text `p ++ summary` whose prefix `p` contains no `'='` character and does
not contain the `"no tests ran"` marker: then no match can start inside
`p`, and the leftmost match is the one in the summary line itself. -/

/-- A pattern longer than `l` cannot match at the start of `l ++ '=' :: s'`
when the pattern contains no `'='`. -/
theorem startsWithPat_append_long (pat : List Char) (hpat : ∀ ch ∈ pat, ch ≠ '=') :
    ∀ (l s' : List Char), l.length < pat.length →
      startsWithPat pat (l ++ '=' :: s') = false := by
  induction pat with
  | nil => intro l s' hlen; simp at hlen
  | cons q qs ih =>
    intro l s' hlen
    cases l with
    | nil =>
      have hq : q ≠ '=' := hpat q (by simp)
      simp [startsWithPat, hq]
    | cons c cs =>
      simp only [List.cons_append, startsWithPat]
      rcases hqc : q == c with - | -
      · simp
      · simp [ih (fun ch hch => hpat ch (by simp [hch])) cs s' (by simp at hlen; omega)]

/-- Matching a pattern no longer than `l` at the start of `l ++ s` is the
same as matching it at the start of `l`. -/
theorem startsWithPat_append_short (pat : List Char) :
    ∀ (l s : List Char), pat.length ≤ l.length →
      startsWithPat pat (l ++ s) = startsWithPat pat l := by
  induction pat with
  | nil => intro l s _; cases l <;> simp [startsWithPat]
  | cons q qs ih =>
    intro l s hlen
    cases l with
    | nil => simp at hlen
    | cons c cs =>
      simp only [List.cons_append, startsWithPat]
      simp only [List.append_eq, ih cs s (by simp at hlen; omega)]

/-- A pattern without `'='` occurs in `p ++ '=' :: s'` (with `p` free of
`'='` and of the pattern) exactly when it occurs in `'=' :: s'`: an
occurrence cannot straddle the boundary, because it would have to cover the
`'='`. -/
theorem containsSub_append_eqfree (pat : List Char) (hpat : ∀ ch ∈ pat, ch ≠ '=') :
    ∀ (p : List Char), (∀ ch ∈ p, ch ≠ '=') → containsSub pat p = false →
      ∀ s', containsSub pat (p ++ '=' :: s') = containsSub pat ('=' :: s') := by
  intro p
  induction p with
  | nil => intro _ _ s'; rfl
  | cons c rest ih =>
    intro hp hc s'
    have hc1 : startsWithPat pat (c :: rest) = false := by
      have := hc
      unfold containsSub at this
      exact (Bool.or_eq_false_iff.mp this).1
    have hc2 : containsSub pat rest = false := by
      have := hc
      unfold containsSub at this
      exact (Bool.or_eq_false_iff.mp this).2
    have hstart : startsWithPat pat ((c :: rest) ++ '=' :: s') = false := by
      rcases Nat.lt_or_ge (c :: rest).length pat.length with hlt | hge
      · exact startsWithPat_append_long pat hpat (c :: rest) s' hlt
      · rw [startsWithPat_append_short pat (c :: rest) ('=' :: s') hge]
        exact hc1
    calc containsSub pat ((c :: rest) ++ '=' :: s')
        = (startsWithPat pat ((c :: rest) ++ '=' :: s') ||
            containsSub pat (rest ++ '=' :: s')) := rfl
      _ = containsSub pat (rest ++ '=' :: s') := by rw [hstart]; simp
      _ = containsSub pat ('=' :: s') :=
          ih (fun ch hch => hp ch (by simp [hch])) hc2 s'

/-- No match of the summary-line pattern can start inside an `'='`-free
prefix, so the regex search skips straight past it. -/
theorem reSearch_append_eqfree :
    ∀ (p : List Char), (∀ ch ∈ p, ch ≠ '=') →
      ∀ s', reSearch (p ++ '=' :: s') = reSearch ('=' :: s') := by
  intro p
  induction p with
  | nil => intro _ s'; rfl
  | cons c rest ih =>
    intro hp s'
    have hc : (c == '=') = false := by
      have := hp c (by simp)
      simp [this]
    show (match eqPlusWs (c :: (rest ++ '=' :: s')) with
          | some r => some r
          | none => reSearch (rest ++ '=' :: s')) = reSearch ('=' :: s')
    rw [show eqPlusWs (c :: (rest ++ '=' :: s')) = none by simp [eqPlusWs, hc]]
    exact ih (fun ch hch => hp ch (by simp [hch])) s'

/-- The parser ignores an `'='`-free, marker-free prefix entirely. -/
theorem parse_chars_append (p : List Char) (hp : ∀ ch ∈ p, ch ≠ '=')
    (hc : containsSub ntr p = false) (s' : List Char) :
    parse_pytest_output_chars (p ++ '=' :: s') = parse_pytest_output_chars ('=' :: s') := by
  have hntr : ∀ ch ∈ ntr, ch ≠ '=' := by decide
  unfold parse_pytest_output_chars
  rw [containsSub_append_eqfree ntr hntr p hp hc s', reSearch_append_eqfree p hp s']

/-- The summary line `"== 3 failed, 5 passed in 1.2s =="`. -/
def sum1 : List Char := ("== 3 failed, 5 passed in 1.2s ==").data

/-- The summary line `"== 4 passed in 0.3s =="` (no failed group). -/
def sum2 : List Char := ("== 4 passed in 0.3s ==").data

/-- The summary line `"== 2 failed in 0.1s =="` (no passed group). -/
def sum3 : List Char := ("== 2 failed in 0.1s ==").data

/-- Claim C4 (amended): the parser returns `{passed := 5, failed := 3}` on
`"== 3 failed, 5 passed in 1.2s =="`, `{passed := 4, failed := 0}` on
`"== 4 passed in 0.3s =="` and `{passed := 0, failed := 2}` on
`"== 2 failed in 0.1s =="` — on a matched summary line a missing failed or
passed group defaults to 0 — and this extends to any text formed by
prepending content that contains neither a `'='` character nor the
`"no tests ran"` marker.  (The original "every text ending in …" form fails
because the leftmost regex match wins; see the counterexample.) -/
theorem parser_summary_line_amended (p : List Char) (hp : ∀ ch ∈ p, ch ≠ '=')
    (hc : containsSub ntr p = false) :
    parse_pytest_output_chars (p ++ sum1) = ⟨5, 3, false⟩
    ∧ parse_pytest_output_chars (p ++ sum2) = ⟨4, 0, false⟩
    ∧ parse_pytest_output_chars (p ++ sum3) = ⟨0, 2, false⟩ := by
  refine ⟨?_, ?_, ?_⟩
  · rw [show sum1 = '=' :: ("= 3 failed, 5 passed in 1.2s ==").data from rfl,
      parse_chars_append p hp hc]
    decide
  · rw [show sum2 = '=' :: ("= 4 passed in 0.3s ==").data from rfl,
      parse_chars_append p hp hc]
    decide
  · rw [show sum3 = '=' :: ("= 2 failed in 0.1s ==").data from rfl,
      parse_chars_append p hp hc]
    decide

theorem parser_summary_line_amended_witness :
    parse_pytest_output_chars (("collected 8 items\n").data ++ sum1) = ⟨5, 3, false⟩
    ∧ parse_pytest_output_chars (("collected 8 items\n").data ++ sum2) = ⟨4, 0, false⟩
    ∧ parse_pytest_output_chars (("collected 8 items\n").data ++ sum3) = ⟨0, 2, false⟩ :=
  parser_summary_line_amended ("collected 8 items\n").data (by decide) (by decide)

/-- Counterexample to claim C4 as stated: this text ends in
`"== 3 failed, 5 passed in 1.2s =="`, yet the parser reports the *earlier*
summary line `"== 7 failed =="` (leftmost match), not `{passed := 5,
failed := 3}`. -/
theorem parser_leftmost_counterexample :
    ("== 7 failed ==\n== 3 failed, 5 passed in 1.2s ==").data
      = ("== 7 failed ==\n").data ++ sum1
    ∧ parse_pytest_output "== 7 failed ==\n== 3 failed, 5 passed in 1.2s ==" = ⟨0, 7, false⟩
    ∧ parse_pytest_output "== 7 failed ==\n== 3 failed, 5 passed in 1.2s =="
        ≠ ⟨5, 3, false⟩ :=
  ⟨by decide, by decide, by decide⟩

/-! ## String append helpers -/

theorem strDataAppend (a b : String) : (a ++ b).data = a.data ++ b.data := rfl

theorem strAppendEmpty (s : String) : s ++ "" = s := by
  cases s with
  | mk d => show String.mk (d ++ []) = String.mk d; rw [List.append_nil]

theorem strAppendAssoc (a b c : String) : (a ++ b) ++ c = a ++ (b ++ c) := by
  cases a with
  | mk da =>
    cases b with
    | mk db =>
      cases c with
      | mk dc =>
        show String.mk ((da ++ db) ++ dc) = String.mk (da ++ (db ++ dc))
        rw [List.append_assoc]

/-! ## The command runner (`run_command` of run_claude.py)

The external process is abstracted by a `CmdOutcome`: either `subprocess.run`
returned (with a return code and the two captured streams), or launching it
raised an exception with a message.  Inside the Python `try`, a non-zero
return code under `check=True` raises `CalledProcessError(returncode,
command, stdout + stderr)`; the broad `except Exception` catches it (and any
launch error), logs, re-raises when `check` is set, and otherwise returns
the sentinel triple `(-1, "", str(e))`. -/

/-- What the attempt to execute the external command did. -/
inductive CmdOutcome where
  | ran (returncode : Int) (stdout stderr : String)
  | raisedExn (msg : String)

/-- The exceptions `run_command` can propagate in strict mode. -/
inductive CmdError where
  | calledProcessError (returncode : Int) (cmd : String) (output : String)
  | execError (msg : String)

/-- Function `run_command` of run_claude.py (the append-only log-file side effect is
not material to any claim about its return behaviour and is omitted here;
the artifact writes are modelled with the model client below). -/
def run_command (cmd : String) (check : Bool) (outcome : CmdOutcome) :
    Except CmdError (Int × String × String) :=
  match outcome with
  | .ran rc out err =>
    if check && rc != 0 then .error (.calledProcessError rc cmd (out ++ err))
    else .ok (rc, out, err)
  | .raisedExn msg =>
    if check then .error (.execError msg) else .ok (-1, "", msg)

/-- Claim C9: with the strict flag unset the runner never signals an error —
a nonzero return code comes back in the result triple and an execution
exception becomes `(-1, "", message)`; with the strict flag set, a nonzero
return code is signaled as a `CalledProcessError` carrying the captured
output, and a launch exception is re-raised. -/
theorem run_command_strict_behavior (cmd : String) (rc : Int) (out err msg : String)
    (hrc : rc ≠ 0) :
    run_command cmd false (.ran rc out err) = .ok (rc, out, err)
    ∧ run_command cmd false (.raisedExn msg) = .ok (-1, "", msg)
    ∧ run_command cmd true (.ran rc out err) =
        .error (.calledProcessError rc cmd (out ++ err))
    ∧ run_command cmd true (.ran 0 out err) = .ok (0, out, err)
    ∧ run_command cmd true (.raisedExn msg) = .error (.execError msg) := by
  refine ⟨rfl, rfl, ?_, rfl, rfl⟩
  simp only [run_command, Bool.true_and]
  rw [if_pos]
  simp [hrc]

theorem run_command_strict_behavior_witness :
    run_command "pytest" false (.ran 2 "out" "err") = .ok (2, "out", "err")
    ∧ run_command "pytest" false (.raisedExn "not found") = .ok (-1, "", "not found")
    ∧ run_command "pytest" true (.ran 2 "out" "err") =
        .error (.calledProcessError 2 "pytest" ("out" ++ "err"))
    ∧ run_command "pytest" true (.ran 0 "out" "err") = .ok (0, "out", "err")
    ∧ run_command "pytest" true (.raisedExn "not found") = .error (.execError "not found") :=
  run_command_strict_behavior "pytest" 2 "out" "err" "not found" (by decide)

/-! ## Artifact files and the model client (`call_anthropic` of run_claude.py)

The three artifact files whose write modes the claims discuss are modelled
by their contents.  `call_anthropic` checks the credential (Python's `if not
API_KEY` treats both an unset and an empty value as missing), then walks the
fixed `MODELS` list; a successful request appends one JSON line to
prompts.log and a markdown section to prompts.md and returns the response
text; a failed request moves on to the next model.  The serialized JSON
record and the markdown section (timestamps, `json.dumps`) are supplied by
the environment, since their exact text is produced by external libraries. -/

/-- Contents of agent.log, prompts.log and prompts.md. -/
structure ArtifactFS where
  agentLog : String
  promptsLog : String
  promptsMd : String

/-- Lines 259–266 of run_claude.py: the agent log is opened in write mode
(`open(..., "w")`), so the file is truncated and receives exactly one JSON
record. -/
def saveAgentLog (fs : ArtifactFS) (record : String) : ArtifactFS :=
  { fs with agentLog := record ++ "\n" }

/-- The environment of the model client: the credential from the process
environment, the outcome of the HTTP request per model identifier (`none`
for a `RequestException`, `some text` for a 2xx response whose first content
element carries `text`), and the serialized log record / markdown section
built for a successful exchange. -/
structure ApiEnv where
  apiKey : Option String
  respond : String → Option String
  entryLine : String → String → String
  mdSection : String → String → String

/-- Python truthiness of the credential: unset or empty is falsy. -/
def falsyKey : Option String → Bool
  | none => true
  | some s => s == ""

/-- The fixed priority-ordered model list of run_claude.py. -/
def MODELS : List String :=
  ["claude-3-haiku-20240307",
   "claude-3-5-sonnet-20240620",
   "claude-3-sonnet-20240229",
   "claude-3-opus-20240229"]

/-- Result of the model-client loop: the returned text (if any), the model
identifiers actually attempted (in order), and the artifact files after the
loop. -/
structure CallResult where
  response : Option String
  attempted : List String
  fs : ArtifactFS

/-- The `for model_name in MODELS` loop: on success, append the JSONL record
to prompts.log and the section to prompts.md and return the response text;
on failure, continue with the next identifier. -/
def tryModels (env : ApiEnv) (fs : ArtifactFS) : List String → CallResult
  | [] => ⟨none, [], fs⟩
  | m :: ms =>
    match env.respond m with
    | some text =>
      ⟨some text, [m],
       { fs with
           promptsLog := fs.promptsLog ++ env.entryLine m text ++ "\n",
           promptsMd := fs.promptsMd ++ env.mdSection m text }⟩
    | none =>
      let r := tryModels env fs ms
      ⟨r.response, m :: r.attempted, r.fs⟩

/-- Function `call_anthropic` of run_claude.py. -/
def call_anthropic (env : ApiEnv) (fs : ArtifactFS) : CallResult :=
  if falsyKey env.apiKey then ⟨none, [], fs⟩
  else tryModels env fs MODELS

theorem tryModels_response_none_iff (env : ApiEnv) (fs : ArtifactFS) :
    ∀ l : List String,
      ((tryModels env fs l).response = none ↔ ∀ m ∈ l, env.respond m = none) := by
  intro l
  induction l with
  | nil => simp [tryModels]
  | cons m ms ih =>
    rcases hr : env.respond m with - | t
    · simp only [tryModels, hr]
      simp only [List.mem_cons]
      constructor
      · intro h x hx
        rcases hx with hx | hx
        · rw [hx]; exact hr
        · exact (ih.mp h) x hx
      · intro h
        exact ih.mpr (fun x hx => h x (Or.inr hx))
    · simp [tryModels, hr]

theorem tryModels_attempted_leads (env : ApiEnv) (fs : ArtifactFS) :
    ∀ l : List String, ∃ t, l = (tryModels env fs l).attempted ++ t := by
  intro l
  induction l with
  | nil => exact ⟨[], rfl⟩
  | cons m ms ih =>
    rcases hr : env.respond m with - | t
    · rcases ih with ⟨t, ht⟩
      refine ⟨t, ?_⟩
      simp only [tryModels, hr]
      rw [List.cons_append, ← ht]
    · exact ⟨ms, by simp [tryModels, hr]⟩

theorem tryModels_dropLast_failed (env : ApiEnv) (fs : ArtifactFS) :
    ∀ l : List String, ∀ m ∈ (tryModels env fs l).attempted.dropLast,
      env.respond m = none := by
  intro l
  induction l with
  | nil => simp [tryModels]
  | cons m ms ih =>
    rcases hr : env.respond m with - | t
    · intro x hx
      simp only [tryModels, hr] at hx
      rcases hatt : (tryModels env fs ms).attempted with - | ⟨a, as⟩
      · rw [hatt] at hx; simp at hx
      · rw [hatt] at hx
        rw [List.dropLast_cons₂] at hx
        rcases List.mem_cons.mp hx with hx1 | hx1
        · rw [hx1]; exact hr
        · exact ih x (by rw [hatt]; exact hx1)
    · intro x hx
      simp [tryModels, hr] at hx

theorem tryModels_last_success (env : ApiEnv) (fs : ArtifactFS) :
    ∀ l : List String, ∀ t, (tryModels env fs l).response = some t →
      ∃ m, (tryModels env fs l).attempted.getLast? = some m ∧ env.respond m = some t := by
  intro l
  induction l with
  | nil => intro t ht; simp [tryModels] at ht
  | cons m ms ih =>
    intro t ht
    rcases hr : env.respond m with - | txt
    · simp only [tryModels, hr] at ht ⊢
      rcases ih t ht with ⟨x, hx1, hx2⟩
      refine ⟨x, ?_, hx2⟩
      rcases hatt : (tryModels env fs ms).attempted with - | ⟨a, as⟩
      · rw [hatt] at hx1; simp at hx1
      · rw [hatt] at hx1
        rw [List.getLast?_cons_cons]
        exact hx1
    · simp only [tryModels, hr] at ht ⊢
      refine ⟨m, by simp, ?_⟩
      rw [hr]
      simpa using ht

theorem startsWithPat_self_append : ∀ pat s : List Char, startsWithPat pat (pat ++ s) = true := by
  intro pat s
  induction pat with
  | nil => rfl
  | cons p ps ih => simp [startsWithPat, ih]

theorem tryModels_fs_appended (env : ApiEnv) (fs : ArtifactFS) :
    ∀ l : List String,
      (∃ t, (tryModels env fs l).fs.promptsLog = fs.promptsLog ++ t)
      ∧ (∃ t, (tryModels env fs l).fs.promptsMd = fs.promptsMd ++ t)
      ∧ (tryModels env fs l).fs.agentLog = fs.agentLog := by
  intro l
  induction l with
  | nil =>
    exact ⟨⟨"", (strAppendEmpty _).symm⟩, ⟨"", (strAppendEmpty _).symm⟩, rfl⟩
  | cons m ms ih =>
    rcases hr : env.respond m with - | t
    · simpa only [tryModels, hr] using ih
    · have hstep : tryModels env fs (m :: ms) =
          ⟨some t, [m],
           { fs with
               promptsLog := fs.promptsLog ++ env.entryLine m t ++ "\n",
               promptsMd := fs.promptsMd ++ env.mdSection m t }⟩ := by
        simp [tryModels, hr]
      rw [hstep]
      exact ⟨⟨env.entryLine m t ++ "\n", strAppendAssoc _ _ _⟩,
             ⟨env.mdSection m t, rfl⟩, rfl⟩

/-- Claim C7: the model client walks the fixed priority-ordered list in
order — the attempted identifiers are an initial segment of `MODELS`, every
attempted identifier except the last failed (so a failure moves on to the
next identifier with no retry), the returned text is the response of the
last (first successful) attempted model, later models are never attempted,
and the result is `none` exactly when every model in the list fails. -/
theorem model_fallback_order (env : ApiEnv) (fs : ArtifactFS)
    (hk : falsyKey env.apiKey = false) :
    ((call_anthropic env fs).response = none ↔ ∀ m ∈ MODELS, env.respond m = none)
    ∧ (∃ t, MODELS = (call_anthropic env fs).attempted ++ t)
    ∧ (∀ m ∈ (call_anthropic env fs).attempted.dropLast, env.respond m = none)
    ∧ (∀ t, (call_anthropic env fs).response = some t →
        ∃ m, (call_anthropic env fs).attempted.getLast? = some m ∧
          env.respond m = some t) := by
  have hcall : call_anthropic env fs = tryModels env fs MODELS := by
    unfold call_anthropic
    rw [hk]
    simp
  rw [hcall]
  exact ⟨tryModels_response_none_iff env fs MODELS,
    tryModels_attempted_leads env fs MODELS,
    tryModels_dropLast_failed env fs MODELS,
    tryModels_last_success env fs MODELS⟩

/-- A sample environment in which the first model fails and the second
succeeds. -/
def apiW : ApiEnv :=
  { apiKey := some "sk-test"
    respond := fun m => if m == "claude-3-5-sonnet-20240620" then some "diff" else none
    entryLine := fun _ _ => "entry"
    mdSection := fun _ _ => "section" }

theorem model_fallback_order_witness :
    ((call_anthropic apiW ⟨"", "", ""⟩).response = none ↔
      ∀ m ∈ MODELS, apiW.respond m = none)
    ∧ (∃ t, MODELS = (call_anthropic apiW ⟨"", "", ""⟩).attempted ++ t)
    ∧ (∀ m ∈ (call_anthropic apiW ⟨"", "", ""⟩).attempted.dropLast, apiW.respond m = none)
    ∧ (∀ t, (call_anthropic apiW ⟨"", "", ""⟩).response = some t →
        ∃ m, (call_anthropic apiW ⟨"", "", ""⟩).attempted.getLast? = some m ∧
          apiW.respond m = some t) :=
  model_fallback_order apiW ⟨"", "", ""⟩ (by decide)

/-- Claim C10 (amended): the prompts JSONL log and the human-readable
transcript are only ever appended to by the model client — the prior
content stays a prefix — but the agent log is opened in write mode, so the
saved record *replaces* any prior content: after a run it holds exactly the
one JSON record of that invocation. -/
theorem artifact_append_behavior_amended (env : ApiEnv) (fs : ArtifactFS)
    (record : String) :
    (∃ t, (call_anthropic env fs).fs.promptsLog = fs.promptsLog ++ t)
    ∧ (∃ t, (call_anthropic env fs).fs.promptsMd = fs.promptsMd ++ t)
    ∧ (saveAgentLog fs record).agentLog = record ++ "\n"
    ∧ (saveAgentLog fs record).promptsLog = fs.promptsLog
    ∧ (saveAgentLog fs record).promptsMd = fs.promptsMd := by
  refine ⟨?_, ?_, rfl, rfl, rfl⟩
  · by_cases hk : falsyKey env.apiKey
    · refine ⟨"", ?_⟩
      simp only [call_anthropic, hk, if_true]
      exact (strAppendEmpty _).symm
    · have := (tryModels_fs_appended env fs MODELS).1
      simpa only [call_anthropic, hk, if_false] using this
  · by_cases hk : falsyKey env.apiKey
    · refine ⟨"", ?_⟩
      simp only [call_anthropic, hk, if_true]
      exact (strAppendEmpty _).symm
    · have := (tryModels_fs_appended env fs MODELS).2.1
      simpa only [call_anthropic, hk, if_false] using this

/-- Counterexample to claim C10 as stated: saving the agent log record does
*not* preserve the file's prior content — a record from an earlier
invocation is discarded, because lines 259–266 of run_claude.py open
agent.log in `"w"` mode. -/
theorem agent_log_overwrite_counterexample :
    (saveAgentLog ⟨"first-record\n", "", ""⟩ "second-record").agentLog = "second-record\n"
    ∧ ¬ ∃ t, (saveAgentLog ⟨"first-record\n", "", ""⟩ "second-record").agentLog
        = "first-record\n" ++ t := by
  constructor
  · rfl
  · rintro ⟨t, ht⟩
    have ht2 : "second-record\n" = "first-record\n" ++ t := ht
    have hd := congrArg String.data ht2
    rw [strDataAppend] at hd
    have hsw : startsWithPat ("first-record\n").data (("second-record\n").data) = true := by
      rw [hd]
      exact startsWithPat_self_append _ _
    exact absurd hsw (by decide)

/-! ## The patch extractor (`extract_patch` of run_claude.py)

Both regexes, `re.search(r"```diff\n(.*?)```", t, re.DOTALL)` and
`re.search(r"```\n(.*?)```", t, re.DOTALL)`, reduce to substring search:
the leftmost match starts at the first occurrence of the opening literal,
and the non-greedy `(.*?)` ends at the first occurrence of ```` ``` ````
after it.  (If the first opener has no closer after it, no later opener
can match either: any closer for a later opener — openers cannot overlap —
would also close the first.) -/

/-- Remainder after the first occurrence of `pat`, if any. -/
def dropAfterFirst (pat : List Char) : List Char → Option (List Char)
  | [] => if startsWithPat pat [] then some [] else none
  | c :: rest =>
    if startsWithPat pat (c :: rest) then some ((c :: rest).drop pat.length)
    else dropAfterFirst pat rest

/-- Content before the first occurrence of `pat`; `none` if `pat` is absent. -/
def takeBeforeFirst (pat : List Char) : List Char → Option (List Char)
  | [] => if startsWithPat pat [] then some [] else none
  | c :: rest =>
    if startsWithPat pat (c :: rest) then some []
    else (takeBeforeFirst pat rest).map (fun t => c :: t)

/-- The block tagged as a diff: ``` ```diff ``` fence, content up to the
next ```` ``` ````. -/
def diffTagged (t : List Char) : Option (List Char) :=
  (dropAfterFirst ("```diff\n").data t).bind (takeBeforeFirst ("```").data)

/-- The first generic fenced block: ```` ```\n ```` opener, content up to
the next ```` ``` ````. -/
def genericBlock (t : List Char) : Option (List Char) :=
  (dropAfterFirst ("```\n").data t).bind (takeBeforeFirst ("```").data)

/-- The diff markers looked for inside a generic fenced block. -/
def hasDiffMarkers (c : List Char) : Bool :=
  containsSub ("diff --git").data c || containsSub ("--- a/").data c

/-- The final fallback: the raw text itself, when it contains both
`diff --git` and `index`. -/
def rawDiffHeuristic (t : List Char) : Option (List Char) :=
  if containsSub ("diff --git").data t && containsSub ("index").data t then some t
  else none

/-- Function `extract_patch` of run_claude.py, on a character list. -/
def extract_patch_chars (t : List Char) : Option (List Char) :=
  match diffTagged t with
  | some c => some c
  | none =>
    match genericBlock t with
    | some c => if hasDiffMarkers c then some c else rawDiffHeuristic t
    | none => rawDiffHeuristic t

/-- Function `extract_patch` of run_claude.py. -/
def extract_patch (t : String) : Option String :=
  (extract_patch_chars t.data).map (fun c => String.mk c)

/-- Claim C8 (amended): the extractor's priority order is (1) the content of
the first ``` ```diff ```-tagged fenced block, with no fence markers; (2)
otherwise the content of the *first* generic fenced block, provided that
content contains `diff --git` or a `--- a/` header — a first generic block
without markers makes the extractor skip to step (3) without examining any
later fenced block; (3) otherwise the raw text when it contains both
`diff --git` and `index`; (4) otherwise no patch. -/
theorem patch_extractor_priority_amended (t1 t2 t3 t4 c1 c2 c3 : List Char)
    (h1 : diffTagged t1 = some c1)
    (h2a : diffTagged t2 = none) (h2b : genericBlock t2 = some c2)
    (h2c : hasDiffMarkers c2 = true)
    (h3a : diffTagged t3 = none) (h3b : genericBlock t3 = some c3)
    (h3c : hasDiffMarkers c3 = false)
    (h4a : diffTagged t4 = none) (h4b : genericBlock t4 = none) :
    extract_patch_chars t1 = some c1
    ∧ extract_patch_chars t2 = some c2
    ∧ extract_patch_chars t3 = rawDiffHeuristic t3
    ∧ extract_patch_chars t4 = rawDiffHeuristic t4 := by
  refine ⟨?_, ?_, ?_, ?_⟩
  · simp [extract_patch_chars, h1]
  · simp [extract_patch_chars, h2a, h2b, h2c]
  · simp [extract_patch_chars, h3a, h3b, h3c]
  · simp [extract_patch_chars, h4a, h4b]

theorem patch_extractor_priority_amended_witness :
    extract_patch_chars ("```diff\nX```").data = some (("X").data)
    ∧ extract_patch_chars ("```\ndiff --git a/f b/f```").data
        = some (("diff --git a/f b/f").data)
    ∧ extract_patch_chars ("```\nhello``` diff --git index 1").data
        = rawDiffHeuristic ("```\nhello``` diff --git index 1").data
    ∧ extract_patch_chars ("no fences here diff --git index 2").data
        = rawDiffHeuristic ("no fences here diff --git index 2").data :=
  patch_extractor_priority_amended
    ("```diff\nX```").data ("```\ndiff --git a/f b/f```").data
    ("```\nhello``` diff --git index 1").data ("no fences here diff --git index 2").data
    (("X").data) (("diff --git a/f b/f").data) (("hello").data)
    (by decide) (by decide) (by decide) (by decide)
    (by decide) (by decide) (by decide) (by decide) (by decide)

/-- Counterexample to claim C8 as stated: this text has no diff-tagged
block, and its *second* generic fenced block has content
`"diff --git a/f b/f"`, which contains a diff marker — step (2) of the
claim would return it.  But the code only examines the first generic block
(`"hello"`, no markers), and the raw text lacks `"index"`, so the extractor
returns no patch at all. -/
theorem patch_extractor_counterexample :
    extract_patch "```\nhello```x```\ndiff --git a/f b/f```" = none
    ∧ containsSub ("```\ndiff --git a/f b/f```").data
        ("```\nhello```x```\ndiff --git a/f b/f```").data = true
    ∧ hasDiffMarkers (("diff --git a/f b/f").data) = true :=
  ⟨by decide, by decide, by decide⟩

/-! ## The workflow orchestrator (`main` of run_claude.py)

The orchestrator's environment supplies the credential, the result of
loading task.yaml, whether /testbed exists, the per-model request outcomes,
and the outcomes of the external commands it runs.  `main` exits with code 1
at each fatal check; reading a missing `tests.test_command` key raises an
uncaught `KeyError`, which also terminates the interpreter with a nonzero
code (malformed configuration).  The task document's narrative fields
(`title`, `description`) are taken as present, as §3 of the configuration
contract requires — their absence would raise inside `call_anthropic`,
another malformed-configuration failure.   After the agent-response check
(`if not agent_response`, which Python satisfies for `None` *and* for an
empty string) there is no further exit statement: patch extraction, patch
application and post-verification only log, so `main` finishes with exit
code 0. -/

/-- task.yaml as the orchestrator sees it.  `tests_test_command` is `none`
when the `tests`/`test_command` keys are absent (reading it then raises). -/
structure TaskConfig where
  title : String
  description : String
  requirements : String
  interfaceSpec : String
  tests_test_command : Option String
  setup_commands : String

/-- Outcome of loading task.yaml. -/
inductive TaskLoad where
  | missingFile
  | invalidYaml (msg : String)
  | loaded (cfg : TaskConfig)

/-- Environment of one orchestrator run. -/
structure OrchEnv where
  api : ApiEnv
  taskLoad : TaskLoad
  testbedExists : Bool
  preOutcome : CmdOutcome
  gitApplyOutcome : CmdOutcome
  patchCmdOutcome : CmdOutcome
  postOutcome : CmdOutcome
  agentRecord : Nat → String

/-- Observable result of one orchestrator run. -/
structure OrchResult where
  exitCode : Nat
  fs : ArtifactFS
  patch : Option String
  applyFailed : Bool
  postReturnCode : Option Int

/-- A non-strict `run_command` call; with the strict flag unset the error
branch is unreachable, so the fallback triple there is never produced. -/
def runLoose (cmd : String) (oc : CmdOutcome) : Int × String × String :=
  match run_command cmd false oc with
  | .ok trip => trip
  | .error _ => (-1, "", "")

/-- Function `main` of run_claude.py. -/
def orchestrate (env : OrchEnv) (fs : ArtifactFS) : OrchResult :=
  if falsyKey env.api.apiKey then ⟨1, fs, none, false, none⟩
  else
    match env.taskLoad with
    | .missingFile => ⟨1, fs, none, false, none⟩
    | .invalidYaml _ => ⟨1, fs, none, false, none⟩
    | .loaded cfg =>
      match cfg.tests_test_command with
      | none => ⟨1, fs, none, false, none⟩
      | some vcmd =>
        if env.testbedExists then
          -- setup commands and pre-verification run non-strict: failures are
          -- logged, never fatal
          let _pre := runLoose vcmd env.preOutcome
          let cr := call_anthropic env.api fs
          match cr.response with
          | none => ⟨1, cr.fs, none, false, none⟩
          | some resp =>
            if resp = "" then ⟨1, cr.fs, none, false, none⟩
            else
              let fs2 := saveAgentLog cr.fs (env.agentRecord resp.length)
              let patch := extract_patch resp
              let applyFailed :=
                match patch with
                | some _ =>
                  let r1 := runLoose "git apply changes.patch" env.gitApplyOutcome
                  if r1.1 != 0 then
                    let r2 := runLoose "patch -p1 < changes.patch" env.patchCmdOutcome
                    r2.1 != 0
                  else false
                | none => false
              let rpost := runLoose vcmd env.postOutcome
              ⟨0, fs2, patch, applyFailed, some rpost.1⟩
        else ⟨1, fs, none, false, none⟩

/-- Claim C6 (amended): the orchestrator exits nonzero exactly in the fatal
states — missing/empty credential, missing or malformed task configuration
(including a missing `tests.test_command` key), missing target repository,
total model failure — *or* when the first successful model response has
empty text, which the agent-response check (`if not agent_response`) treats
the same as total failure.  Past that check it always exits 0, regardless of
patch extraction, patch application or post-verification outcome (none of
which appear on the right-hand side). -/
theorem orchestrator_exit_codes_amended (env : OrchEnv) (fs : ArtifactFS) :
    (orchestrate env fs).exitCode ≠ 0 ↔
      (falsyKey env.api.apiKey = true
       ∨ env.taskLoad = .missingFile
       ∨ (∃ msg, env.taskLoad = .invalidYaml msg)
       ∨ (∃ cfg, env.taskLoad = .loaded cfg ∧ cfg.tests_test_command = none)
       ∨ env.testbedExists = false
       ∨ (∀ m ∈ MODELS, env.api.respond m = none)
       ∨ (call_anthropic env.api fs).response = some "") := by
  by_cases hk : falsyKey env.api.apiKey
  · simp [orchestrate, hk]
  · have hcall : call_anthropic env.api fs = tryModels env.api fs MODELS := by
      unfold call_anthropic
      simp [hk]
    cases htl : env.taskLoad with
    | missingFile => simp [orchestrate, hk, htl]
    | invalidYaml msg => simp [orchestrate, hk, htl]
    | loaded cfg =>
      cases htc : cfg.tests_test_command with
      | none => simp [orchestrate, hk, htl, htc]
      | some vcmd =>
        by_cases htb : env.testbedExists
        · cases hcr : (call_anthropic env.api fs).response with
          | none =>
            have hall : ∀ m ∈ MODELS, env.api.respond m = none :=
              (tryModels_response_none_iff env.api fs MODELS).mp
                (by rw [← hcall]; exact hcr)
            simp [orchestrate, hk, htl, htc, htb, hcr]
            exact hall
          | some resp =>
            by_cases hre : resp = ""
            · subst hre
              simp [orchestrate, hk, htl, htc, htb, hcr]
            · have hexit : (orchestrate env fs).exitCode = 0 := by
                simp [orchestrate, hk, htl, htc, htb, hcr, hre]
              rw [hexit]
              constructor
              · intro h0; exact absurd rfl h0
              · intro hD
                exfalso
                rcases hD with h | h | ⟨msg, h⟩ | ⟨cfg2, hec, hnone⟩ | h | h | h
                · exact hk h
                · exact TaskLoad.noConfusion h
                · exact TaskLoad.noConfusion h
                · injection hec with hcc
                  rw [← hcc, htc] at hnone
                  exact Option.noConfusion hnone
                · rw [h] at htb
                  exact Bool.noConfusion htb
                · have hres0 := (tryModels_response_none_iff env.api fs MODELS).mpr h
                  rw [← hcall] at hres0
                  rw [hres0] at hcr
                  exact Option.noConfusion hcr
                · injection h with hres
                  exact hre hres
        · simp [orchestrate, hk, htl, htc, htb]

/-- A well-configured run in which the first model succeeds but returns
empty text. -/
def cfg0 : TaskConfig :=
  { title := "fix"
    description := "bug"
    requirements := ""
    interfaceSpec := ""
    tests_test_command := some "pytest"
    setup_commands := "" }

/-- Environment for the counterexample: credential present, configuration
valid, /testbed present, the first model responds with empty text. -/
def env0 : OrchEnv :=
  { api :=
      { apiKey := some "sk-key"
        respond := fun _ => some ""
        entryLine := fun _ _ => "entry"
        mdSection := fun _ _ => "section" }
    taskLoad := .loaded cfg0
    testbedExists := true
    preOutcome := .ran 1 "== 1 failed ==" ""
    gitApplyOutcome := .ran 0 "" ""
    patchCmdOutcome := .ran 0 "" ""
    postOutcome := .ran 0 "" ""
    agentRecord := fun _ => "record" }

/-- Counterexample to claim C6 as stated: the orchestrator exits nonzero in
a state that is none of the listed fatal states — the credential is
present, the configuration is valid, the target repository exists, and a
model *did* respond (so this is not total model failure) — because the
agent-response check treats the empty response text as falsy. -/
theorem empty_response_exit_counterexample :
    (orchestrate env0 ⟨"", "", ""⟩).exitCode = 1
    ∧ falsyKey env0.api.apiKey = false
    ∧ env0.taskLoad = .loaded cfg0
    ∧ cfg0.tests_test_command = some "pytest"
    ∧ env0.testbedExists = true
    ∧ ¬ (∀ m ∈ MODELS, env0.api.respond m = none) :=
  ⟨by decide, by decide, rfl, rfl, rfl, by decide⟩
